import Mathlib

/-!
Shallow embedding of the idle-session-monitor hook `useSessionTimeout`
(frontend source, `useSessionTimeout.js`) of the smart-price-tracker
repository, together with theorems about its behaviour.

The hook keeps a last-activity timestamp in browser local storage
(`localStorage`), refreshes it on `mousemove` / `keydown` events, and runs a
check every 30 seconds that clears the session (`user_id`, `lastActivity`),
alerts "Session expired. Please log in again." and navigates to "/login"
when `Date.now() - parseInt(lastActivity, 10) > timeoutMinutes * 60 * 1000`.

Local storage is modelled as a partial map from key strings to value
strings; time as `Int` epoch milliseconds; `parseInt(·, 10)` as an
`Option Int` (with `none` for NaN); JavaScript truthiness of the two guard
operands is modelled explicitly (`null`/`""` are falsy strings, `NaN`/`0`
are falsy numbers).
-/

namespace SessionTimeout

/-! ### Decimal rendering: `Date.now().toString()` -/

/-- The character for a decimal digit value (`0 ↦ '0'`, …, `9 ↦ '9'`). -/
def digitChar (d : Nat) : Char := Char.ofNat (48 + d)

/-- Little-endian list of decimal digit characters of a natural number. -/
def natDigitsRev (n : Nat) : List Char :=
  if n < 10 then [digitChar n]
  else digitChar (n % 10) :: natDigitsRev (n / 10)
termination_by n
decreasing_by exact Nat.div_lt_self (by omega) (by omega)

/-- Decimal string of a natural number, as `Number.prototype.toString` renders
a non-negative integer. -/
def natToString (n : Nat) : String := ⟨(natDigitsRev n).reverse⟩

/-- Decimal string of an integer, as `Number.prototype.toString` renders an
integer-valued number. -/
def intToString : Int → String
  | Int.ofNat n => natToString n
  | Int.negSucc n => ⟨'-' :: (natDigitsRev (n + 1)).reverse⟩

/-! ### `parseInt(·, 10)` -/

/-- Decimal digit characters `'0'`–`'9'` (code points 48–57). -/
def isDigitChar (c : Char) : Bool := 48 ≤ c.toNat && c.toNat ≤ 57

/-- JavaScript `StrWhiteSpace` characters stripped by `parseInt` (the common
ones; others do not occur in values written by this component). -/
def isWsChar (c : Char) : Bool := c == ' ' || c == '\t' || c == '\n' || c == '\r'

/-- Strip leading whitespace, as `parseInt` does. -/
def skipWs : List Char → List Char
  | [] => []
  | c :: cs => if isWsChar c then skipWs cs else c :: cs

/-- Value of a big-endian list of decimal digit characters. -/
def digitsToNat (ds : List Char) : Nat :=
  ds.foldl (fun a c => a * 10 + (c.toNat - 48)) 0

/-- `parseInt(s, 10)` on the character list of `s`: strip whitespace, read an
optional sign, then the maximal prefix of decimal digits; `none` models `NaN`
(no digits found). -/
def jsParseIntChars (cs : List Char) : Option Int :=
  match skipWs cs with
  | [] => none
  | c :: rest =>
    let p : Bool × List Char :=
      if c == '-' then (true, rest)
      else if c == '+' then (false, rest)
      else (false, c :: rest)
    let ds := p.2.takeWhile isDigitChar
    if ds.isEmpty then none
    else
      let m : Int := Int.ofNat (digitsToNat ds)
      some (if p.1 then -m else m)

/-- `parseInt(s, 10)` for a string. -/
def jsParseIntStr (s : String) : Option Int := jsParseIntChars s.toList

/-- `parseInt(localStorage.getItem(k), 10)`: a missing entry (`null`) is
coerced to the string `"null"` before parsing, which yields `NaN`. -/
def jsParseInt (v : Option String) : Option Int :=
  jsParseIntStr (v.getD "null")

/-! ### Local storage -/

/-- Browser local storage: a partial map from keys to string values. -/
def Storage : Type := String → Option String

/-- `localStorage.getItem`. -/
def getItem (st : Storage) (k : String) : Option String := st k

/-- `localStorage.setItem`. -/
def setItem (st : Storage) (k v : String) : Storage :=
  fun k' => if k' = k then some v else st k'

/-- `localStorage.removeItem`. -/
def removeItem (st : Storage) (k : String) : Storage :=
  fun k' => if k' = k then none else st k'

/-! ### Truthiness of the guard operands -/

/-- JavaScript truthiness of `localStorage.getItem(...)`: `null` and the
empty string are falsy, every other string is truthy. -/
def truthyStr : Option String → Bool
  | none => false
  | some s => !(s == "")

/-- JavaScript truthiness of a `parseInt` result: `NaN` (modelled `none`)
and `0` are falsy, every other number is truthy. -/
def truthyNum : Option Int → Bool
  | none => false
  | some n => !(n == 0)

/-! ### The monitor's operations -/

/-- The alert message shown on expiry. -/
def sessionExpiredMsg : String := "Session expired. Please log in again."

/-- Outcome of one interval callback: the storage afterwards, the alerts
shown and the routes navigated to (in order). -/
structure CheckResult where
  storage : Storage
  alerts : List String
  navigations : List String

/-- The do-nothing outcome. -/
def noChange (st : Storage) : CheckResult :=
  { storage := st, alerts := [], navigations := [] }

/-- One firing of the `setInterval` callback:

    const lastActivity = parseInt(localStorage.getItem("lastActivity"), 10);
    const userId = localStorage.getItem("user_id");
    if (userId && lastActivity) {
      const now = Date.now();
      if (now - lastActivity > timeoutMs) {
        localStorage.removeItem("user_id");
        localStorage.removeItem("lastActivity");
        alert("Session expired. Please log in again.");
        navigate("/login");
      }
    }
-/
def sessionCheck (timeoutMs now : Int) (st : Storage) : CheckResult :=
  let lastActivity := jsParseInt (getItem st "lastActivity")
  let userId := getItem st "user_id"
  if truthyStr userId && truthyNum lastActivity then
    if now - lastActivity.getD 0 > timeoutMs then
      { storage := removeItem (removeItem st "user_id") "lastActivity"
        alerts := [sessionExpiredMsg]
        navigations := ["/login"] }
    else noChange st
  else noChange st

/-- The shared `mousemove` / `keydown` handler:

    const updateLastActivity = () => {
      localStorage.setItem("lastActivity", Date.now().toString());
    };
-/
def updateLastActivity (now : Int) (st : Storage) : Storage :=
  setItem st "lastActivity" (intToString now)

/-- `timeoutMs = timeoutMinutes * 60 * 1000`. -/
def timeoutMsOf (timeoutMinutes : Int) : Int := timeoutMinutes * 60 * 1000

/-! ### Round-trip: parsing back a rendered timestamp -/

theorem digitChar_toNat {d : Nat} (h : d < 10) : (digitChar d).toNat = 48 + d := by
  interval_cases d <;> decide

theorem isDigitChar_digitChar {d : Nat} (h : d < 10) : isDigitChar (digitChar d) = true := by
  interval_cases d <;> decide

theorem natDigitsRev_ne_nil (n : Nat) : natDigitsRev n ≠ [] := by
  rw [natDigitsRev]
  split <;> simp

theorem mem_natDigitsRev_isDigit (n : Nat) : ∀ c ∈ natDigitsRev n, isDigitChar c = true := by
  induction n using Nat.strong_induction_on with
  | _ n ih =>
    rw [natDigitsRev]
    split
    · intro c hc
      rw [List.mem_singleton] at hc
      subst hc
      exact isDigitChar_digitChar (by omega)
    · intro c hc
      rw [List.mem_cons] at hc
      rcases hc with rfl | hc
      · exact isDigitChar_digitChar (Nat.mod_lt _ (by omega))
      · exact ih (n / 10) (Nat.div_lt_self (by omega) (by omega)) c hc

theorem digitsToNat_append_singleton (xs : List Char) (c : Char) :
    digitsToNat (xs ++ [c]) = digitsToNat xs * 10 + (c.toNat - 48) := by
  simp [digitsToNat, List.foldl_append]

theorem digitsToNat_reverse_natDigitsRev (n : Nat) :
    digitsToNat (natDigitsRev n).reverse = n := by
  induction n using Nat.strong_induction_on with
  | _ n ih =>
    rw [natDigitsRev]
    split
    · simp only [List.reverse_singleton, digitsToNat, List.foldl_cons, List.foldl_nil]
      rw [digitChar_toNat (by omega)]
      omega
    · rw [List.reverse_cons, digitsToNat_append_singleton,
        ih (n / 10) (Nat.div_lt_self (by omega) (by omega)),
        digitChar_toNat (Nat.mod_lt _ (by omega))]
      omega

theorem takeWhile_all {p : Char → Bool} :
    ∀ {l : List Char}, (∀ c ∈ l, p c = true) → l.takeWhile p = l
  | [], _ => rfl
  | c :: cs, h => by
    have h1 := h c (List.mem_cons_self c cs)
    have h2 := takeWhile_all (p := p) (l := cs) fun x hx => h x (List.mem_cons_of_mem _ hx)
    simp [List.takeWhile_cons, h1, h2]

theorem isDigitChar_not_special {c : Char} (h : isDigitChar c = true) :
    isWsChar c = false ∧ (c == '-') = false ∧ (c == '+') = false := by
  refine ⟨?_, ?_, ?_⟩ <;> rw [Bool.eq_false_iff]
  · intro hw
    simp only [isWsChar, Bool.or_eq_true, beq_iff_eq] at hw
    rcases hw with ((rfl | rfl) | rfl) | rfl <;> exact absurd h (by decide)
  · intro hw
    rw [beq_iff_eq] at hw
    subst hw
    exact absurd h (by decide)
  · intro hw
    rw [beq_iff_eq] at hw
    subst hw
    exact absurd h (by decide)

theorem jsParseIntChars_digits {c : Char} {cs : List Char}
    (h : ∀ x ∈ c :: cs, isDigitChar x = true) :
    jsParseIntChars (c :: cs) = some (Int.ofNat (digitsToNat (c :: cs))) := by
  obtain ⟨hws, hminus, hplus⟩ := isDigitChar_not_special (h c (List.mem_cons_self c cs))
  rw [jsParseIntChars]
  simp only [skipWs, hws, if_false, hminus, hplus, Bool.false_eq_true, if_neg,
    takeWhile_all h]
  simp

theorem jsParseIntStr_natToString (n : Nat) :
    jsParseIntStr (natToString n) = some (Int.ofNat n) := by
  have hlist : (natToString n).toList = (natDigitsRev n).reverse := rfl
  rw [jsParseIntStr, hlist]
  obtain ⟨c, cs, hcc⟩ := List.exists_cons_of_ne_nil
    (List.reverse_ne_nil_iff.mpr (natDigitsRev_ne_nil n))
  rw [hcc, jsParseIntChars_digits, ← hcc, digitsToNat_reverse_natDigitsRev]
  intro x hx
  exact mem_natDigitsRev_isDigit n x (by
    have := hcc ▸ hx
    exact List.mem_reverse.mp this)

theorem jsParseIntChars_neg_digits {c : Char} {cs : List Char}
    (h : ∀ x ∈ c :: cs, isDigitChar x = true) :
    jsParseIntChars ('-' :: c :: cs) = some (-(Int.ofNat (digitsToNat (c :: cs)))) := by
  rw [jsParseIntChars]
  simp [skipWs, isWsChar, takeWhile_all h]

theorem jsParseIntStr_intToString (i : Int) :
    jsParseIntStr (intToString i) = some i := by
  cases i with
  | ofNat n => exact jsParseIntStr_natToString n
  | negSucc n =>
    obtain ⟨c, cs, hcc⟩ := List.exists_cons_of_ne_nil
      (List.reverse_ne_nil_iff.mpr (natDigitsRev_ne_nil (n + 1)))
    have hdig : ∀ x ∈ c :: cs, isDigitChar x = true := by
      intro x hx
      exact mem_natDigitsRev_isDigit (n + 1) x (List.mem_reverse.mp (hcc ▸ hx))
    have hval : digitsToNat (c :: cs) = n + 1 := by
      rw [← hcc, digitsToNat_reverse_natDigitsRev]
    have hlist : (intToString (Int.negSucc n)).toList = '-' :: c :: cs := by
      rw [show (intToString (Int.negSucc n)).toList =
        '-' :: (natDigitsRev (n + 1)).reverse from rfl, hcc]
    rw [jsParseIntStr, hlist, jsParseIntChars_neg_digits hdig, hval]
    simp [Int.negSucc_eq]

theorem jsParseInt_some_intToString (t : Int) :
    jsParseInt (some (intToString t)) = some t := jsParseIntStr_intToString t

/-! ### Storage lookup lemmas -/

theorem getItem_setItem_self (st : Storage) (k v : String) :
    getItem (setItem st k v) k = some v := by
  simp [getItem, setItem]

theorem getItem_setItem_ne (st : Storage) {k k' : String} (v : String) (h : k' ≠ k) :
    getItem (setItem st k v) k' = getItem st k' := by
  simp [getItem, setItem, h]

theorem getItem_removeItem_self (st : Storage) (k : String) :
    getItem (removeItem st k) k = none := by
  simp [getItem, removeItem]

theorem getItem_removeItem_ne (st : Storage) {k k' : String} (h : k' ≠ k) :
    getItem (removeItem st k) k' = getItem st k' := by
  simp [getItem, removeItem, h]

/-! ### Branch analysis of one interval callback -/

theorem sessionCheck_eq_noChange_of_not_over {timeoutMs now a : Int} {st : Storage}
    (h1 : jsParseInt (getItem st "lastActivity") = some a)
    (h2 : ¬now - a > timeoutMs) :
    sessionCheck timeoutMs now st = noChange st := by
  simp only [sessionCheck, h1, Option.getD_some, if_neg h2, ite_self]

theorem sessionCheck_eq_noChange_of_falsy_num {timeoutMs now : Int} {st : Storage}
    (h : truthyNum (jsParseInt (getItem st "lastActivity")) = false) :
    sessionCheck timeoutMs now st = noChange st := by
  simp only [sessionCheck, h, Bool.and_false, Bool.false_eq_true, if_false]

theorem sessionCheck_eq_noChange_of_falsy_marker {timeoutMs now : Int} {st : Storage}
    (h : truthyStr (getItem st "user_id") = false) :
    sessionCheck timeoutMs now st = noChange st := by
  simp only [sessionCheck, h, Bool.false_and, Bool.false_eq_true, if_false]

theorem sessionCheck_expired {timeoutMs now a : Int} {st : Storage}
    (hu : truthyStr (getItem st "user_id") = true)
    (h1 : jsParseInt (getItem st "lastActivity") = some a)
    (ha : a ≠ 0)
    (h2 : now - a > timeoutMs) :
    sessionCheck timeoutMs now st =
      { storage := removeItem (removeItem st "user_id") "lastActivity"
        alerts := [sessionExpiredMsg]
        navigations := ["/login"] } := by
  have hn : truthyNum (some a) = true := by simp [truthyNum, ha]
  simp only [sessionCheck, h1, hu, hn, Bool.and_self, if_true, Option.getD_some, if_pos h2]

/-! ### The mounted monitor as a step machine

A mounted hook instance reacts to three kinds of events on the browser's
single-threaded event loop: a firing of the shared `mousemove`/`keydown`
handler, a firing of the 30-second interval callback, and the effect
cleanup (unmount).  `active = false` models the state after `clearInterval`
and `removeEventListener` have run: neither callback fires any more. -/

/-- An event delivered to a monitor instance. -/
inductive MEvent where
  | activity (t : Int)
  | check (t : Int)
  | unmount

/-- A monitor instance: whether its timer/listeners are installed, the
current local storage, and the alerts and navigations it has produced. -/
structure MState where
  active : Bool
  storage : Storage
  alerts : List String
  navigations : List String

/-- One event-loop step of a monitor instance. -/
def stepM (timeoutMs : Int) (s : MState) : MEvent → MState
  | MEvent.activity t =>
      if s.active then { s with storage := updateLastActivity t s.storage } else s
  | MEvent.check t =>
      if s.active then
        let r := sessionCheck timeoutMs t s.storage
        { s with
            storage := r.storage
            alerts := s.alerts ++ r.alerts
            navigations := s.navigations ++ r.navigations }
      else s
  | MEvent.unmount => { s with active := false }

/-- A monitor instance processing a sequence of events. -/
def runM (timeoutMs : Int) (s : MState) (evs : List MEvent) : MState :=
  evs.foldl (stepM timeoutMs) s

/-- Mounting the hook's effect: listeners attached, interval started, and
the timestamp initialised by the trailing `updateLastActivity()` call. -/
def mountMonitor (now : Int) (st : Storage) : MState :=
  { active := true
    storage := updateLastActivity now st
    alerts := []
    navigations := [] }

/-- The individual setup steps the effect body performs on mount. -/
inductive SetupAction where
  | recordActivity
  | addListener (event : String)
  | startInterval (periodMs : Int)
deriving DecidableEq

/-- The effect body, in source order: `addEventListener("mousemove", ...)`,
`addEventListener("keydown", ...)`, `setInterval(..., 30000)`, and finally
the initialising `updateLastActivity()` call. -/
def mountActions : List SetupAction :=
  [SetupAction.addListener "mousemove", SetupAction.addListener "keydown",
   SetupAction.startInterval 30000, SetupAction.recordActivity]

/-- The individual teardown steps of the effect's cleanup function. -/
inductive TeardownAction where
  | clearTimer
  | removeListener (event : String)
deriving DecidableEq

/-- The cleanup function, in source order: `clearInterval(interval)`,
`removeEventListener("mousemove", ...)`, `removeEventListener("keydown", ...)`. -/
def unmountActions : List TeardownAction :=
  [TeardownAction.clearTimer, TeardownAction.removeListener "mousemove",
   TeardownAction.removeListener "keydown"]

/-- `spacedFrom timeoutMs a evs`: every event of `evs` happens within the
idle threshold of the most recent activity (initially at time `a`), times
are non-decreasing, and the monitor stays mounted — the setting of an
activity burst with periodic checks interleaved. -/
def spacedFrom (timeoutMs : Int) : Int → List MEvent → Bool
  | _, [] => true
  | a, MEvent.activity t :: evs =>
      decide (a ≤ t) && decide (t - a < timeoutMs) && spacedFrom timeoutMs t evs
  | a, MEvent.check t :: evs =>
      decide (a ≤ t) && decide (t - a < timeoutMs) && spacedFrom timeoutMs a evs
  | _, MEvent.unmount :: _ => false

/-- A check either does nothing or performs the full expiry action. -/
theorem sessionCheck_cases (timeoutMs now : Int) (st : Storage) :
    sessionCheck timeoutMs now st = noChange st ∨
    sessionCheck timeoutMs now st =
      { storage := removeItem (removeItem st "user_id") "lastActivity"
        alerts := [sessionExpiredMsg]
        navigations := ["/login"] } := by
  simp only [sessionCheck]
  by_cases hC : (truthyStr (getItem st "user_id") &&
      truthyNum (jsParseInt (getItem st "lastActivity"))) = true
  · rw [if_pos hC]
    by_cases hD : now - (jsParseInt (getItem st "lastActivity")).getD 0 > timeoutMs
    · right
      rw [if_pos hD]
    · left
      rw [if_neg hD]
  · left
    rw [if_neg hC]

/-- Once the timer is cancelled and the listeners removed, no event changes
anything. -/
theorem stepM_inactive {timeoutMs : Int} {s : MState} (h : s.active = false) (e : MEvent) :
    stepM timeoutMs s e = s := by
  cases s with
  | mk a st al nv =>
    simp only at h
    subst h
    cases e <;> simp [stepM]

/-- A deactivated monitor instance is inert on whole event sequences. -/
theorem runM_inactive {timeoutMs : Int} {s : MState} (h : s.active = false) :
    ∀ evs : List MEvent, runM timeoutMs s evs = s
  | [] => rfl
  | e :: evs => by
    rw [runM, List.foldl_cons, stepM_inactive h e]
    exact runM_inactive h evs

/-- The successive parsed values of `lastActivity` along a sequence of
handler firings at the given times (including the starting value). -/
def storedTimestamps (st : Storage) (ts : List Int) : List (Option Int) :=
  (ts.scanl (fun s t => updateLastActivity t s) st).map
    fun s => jsParseInt (getItem s "lastActivity")

theorem storedTimestamps_eq (a : Int) :
    ∀ (ts : List Int) (st : Storage),
      jsParseInt (getItem st "lastActivity") = some a →
      storedTimestamps st ts = (a :: ts).map some
  | [], st, h => by
    simp [storedTimestamps, h]
  | t :: ts, st, h => by
    have hnext : jsParseInt (getItem (updateLastActivity t st) "lastActivity") = some t := by
      rw [updateLastActivity, getItem_setItem_self]
      exact jsParseInt_some_intToString t
    have ih := storedTimestamps_eq t ts (updateLastActivity t st) hnext
    simp only [storedTimestamps] at ih ⊢
    rw [List.scanl_cons, List.singleton_append, List.map_cons, h, ih]
    simp

/-! ## Claims -/

/-- **C3**: if the persisted `lastActivity` value is missing or not parseable
as a number (`parseInt` yields `NaN`, modelled `none`), the periodic check
performs no expiry action — storage untouched, no alert, no navigation —
regardless of whether the session marker is present. -/
theorem c3_malformed_timestamp_inert (timeoutMs now : Int) (st : Storage)
    (h : jsParseInt (getItem st "lastActivity") = none) :
    (sessionCheck timeoutMs now st).storage = st ∧
    (sessionCheck timeoutMs now st).alerts = [] ∧
    (sessionCheck timeoutMs now st).navigations = [] := by
  rw [sessionCheck_eq_noChange_of_falsy_num (by rw [h]; rfl)]
  exact ⟨rfl, rfl, rfl⟩

/-- Witness for C3 at a concrete non-numeric `lastActivity` value with the
marker present. -/
theorem c3_malformed_timestamp_inert_witness :
    jsParseInt (getItem
      (fun k => if k = "user_id" then some "alice" else
        if k = "lastActivity" then some "hello" else none) "lastActivity") = none ∧
    ((sessionCheck 600000 1000000
        (fun k => if k = "user_id" then some "alice" else
          if k = "lastActivity" then some "hello" else none)).storage =
      (fun k => if k = "user_id" then some "alice" else
        if k = "lastActivity" then some "hello" else none) ∧
      (sessionCheck 600000 1000000
        (fun k => if k = "user_id" then some "alice" else
          if k = "lastActivity" then some "hello" else none)).alerts = [] ∧
      (sessionCheck 600000 1000000
        (fun k => if k = "user_id" then some "alice" else
          if k = "lastActivity" then some "hello" else none)).navigations = []) :=
  ⟨by decide, c3_malformed_timestamp_inert 600000 1000000 _ (by decide)⟩

/-- **C4**: while the session marker is absent, every periodic check is a
no-op, and repeating checks indefinitely (any list of check times) leaves
the storage unchanged and produces no alert and no navigation. -/
theorem c4_no_marker_checks_noop (timeoutMs : Int) (st : Storage)
    (h : getItem st "user_id" = none) (ts : List Int) :
    ts.foldl (fun s t => (sessionCheck timeoutMs t s).storage) st = st ∧
    ∀ now : Int, sessionCheck timeoutMs now st = noChange st := by
  have hnc : ∀ now : Int, sessionCheck timeoutMs now st = noChange st := fun now =>
    sessionCheck_eq_noChange_of_falsy_marker (by rw [h]; rfl)
  refine ⟨?_, hnc⟩
  induction ts with
  | nil => rfl
  | cons t ts ihts =>
    rw [List.foldl_cons, hnc t]
    exact ihts

/-- Witness for C4: no marker, two successive checks, nothing happens. -/
theorem c4_no_marker_checks_noop_witness :
    getItem (fun k => if k = "lastActivity" then some "99" else none) "user_id" = none ∧
    (([100000, 200000] : List Int).foldl
        (fun s t => (sessionCheck 600000 t s).storage)
        (fun k => if k = "lastActivity" then some "99" else none) =
      (fun k => if k = "lastActivity" then some "99" else none) ∧
      ∀ now : Int, sessionCheck 600000 now
          (fun k => if k = "lastActivity" then some "99" else none) =
        noChange (fun k => if k = "lastActivity" then some "99" else none)) :=
  ⟨by decide, c4_no_marker_checks_noop 600000 _ (by decide) [100000, 200000]⟩

/-- **C10**: when the stored `lastActivity` parses to the integer `0`, the
check performs no expiry action even though the marker is present and
`now - 0` exceeds the threshold: the guard tests JavaScript truthiness of
the parsed number and `0` is falsy, exactly like a missing value. -/
theorem c10_zero_timestamp_inert (timeoutMs now : Int) (st : Storage) (u : String)
    (h : jsParseInt (getItem st "lastActivity") = some 0)
    (_hm : getItem st "user_id" = some u) (_hu : u ≠ "")
    (_hgt : now - 0 > timeoutMs) :
    (sessionCheck timeoutMs now st).storage = st ∧
    (sessionCheck timeoutMs now st).alerts = [] ∧
    (sessionCheck timeoutMs now st).navigations = [] := by
  rw [sessionCheck_eq_noChange_of_falsy_num (by rw [h]; rfl)]
  exact ⟨rfl, rfl, rfl⟩

/-- Witness for C10: marker `"alice"`, `lastActivity = "0"`, elapsed far over
the threshold, and still no expiry. -/
theorem c10_zero_timestamp_inert_witness :
    jsParseInt (getItem
      (fun k => if k = "user_id" then some "alice" else
        if k = "lastActivity" then some "0" else none) "lastActivity") = some 0 ∧
    getItem (fun k => if k = "user_id" then some "alice" else
        if k = "lastActivity" then some "0" else none) "user_id" = some "alice" ∧
    ("alice" : String) ≠ "" ∧ ((1000000 : Int) - 0 > 600000) ∧
    ((sessionCheck 600000 1000000
        (fun k => if k = "user_id" then some "alice" else
          if k = "lastActivity" then some "0" else none)).storage =
      (fun k => if k = "user_id" then some "alice" else
        if k = "lastActivity" then some "0" else none) ∧
      (sessionCheck 600000 1000000
        (fun k => if k = "user_id" then some "alice" else
          if k = "lastActivity" then some "0" else none)).alerts = [] ∧
      (sessionCheck 600000 1000000
        (fun k => if k = "user_id" then some "alice" else
          if k = "lastActivity" then some "0" else none)).navigations = []) :=
  ⟨by decide, by decide, by decide, by decide,
    c10_zero_timestamp_inert 600000 1000000 _ "alice" (by decide) (by decide) (by decide)
      (by decide)⟩

/-- **C6**: a firing of the shared `mousemove`/`keydown` handler writes only
the `lastActivity` entry (to the current time), changes no other storage
entry, and produces no alert and no navigation. -/
theorem c6_activity_handler_frame (timeoutMs t : Int) (s : MState) (h : s.active = true) :
    (stepM timeoutMs s (MEvent.activity t)).storage "lastActivity" =
      some (intToString t) ∧
    (∀ k : String, k ≠ "lastActivity" →
      (stepM timeoutMs s (MEvent.activity t)).storage k = s.storage k) ∧
    (stepM timeoutMs s (MEvent.activity t)).alerts = s.alerts ∧
    (stepM timeoutMs s (MEvent.activity t)).navigations = s.navigations := by
  have hstep : stepM timeoutMs s (MEvent.activity t) =
      { s with storage := updateLastActivity t s.storage } := by
    simp [stepM, h]
  rw [hstep]
  exact ⟨getItem_setItem_self s.storage "lastActivity" (intToString t),
    fun k hk => getItem_setItem_ne s.storage (intToString t) hk, rfl, rfl⟩

/-- Witness for C6 at a concrete mounted state and time. -/
theorem c6_activity_handler_frame_witness :
    (MState.mk true (fun _ => none) [] []).active = true ∧
    ((stepM 600000 (MState.mk true (fun _ => none) [] [])
        (MEvent.activity 42)).storage "lastActivity" = some (intToString 42) ∧
      (∀ k : String, k ≠ "lastActivity" →
        (stepM 600000 (MState.mk true (fun _ => none) [] [])
          (MEvent.activity 42)).storage k =
        (MState.mk true (fun _ => none) [] []).storage k) ∧
      (stepM 600000 (MState.mk true (fun _ => none) [] [])
        (MEvent.activity 42)).alerts = [] ∧
      (stepM 600000 (MState.mk true (fun _ => none) [] [])
        (MEvent.activity 42)).navigations = []) :=
  ⟨rfl, c6_activity_handler_frame 600000 42 _ rfl⟩

/-- **C9**: the cleanup function cancels the interval timer and removes both
activity listeners, and from the deactivated state no sequence of further
timer or input events changes storage or produces an alert or navigation. -/
theorem c9_unmount_inert (timeoutMs : Int) (s : MState) (evs : List MEvent) :
    unmountActions = [TeardownAction.clearTimer,
      TeardownAction.removeListener "mousemove",
      TeardownAction.removeListener "keydown"] ∧
    (runM timeoutMs (stepM timeoutMs s MEvent.unmount) evs).storage = s.storage ∧
    (runM timeoutMs (stepM timeoutMs s MEvent.unmount) evs).alerts = s.alerts ∧
    (runM timeoutMs (stepM timeoutMs s MEvent.unmount) evs).navigations = s.navigations ∧
    (runM timeoutMs (stepM timeoutMs s MEvent.unmount) evs).active = false := by
  have h : (stepM timeoutMs s MEvent.unmount).active = false := rfl
  rw [runM_inactive h evs]
  exact ⟨rfl, rfl, rfl, rfl, rfl⟩

/-- **C8** (counterexample): the effect body does *not* record the timestamp
first; its first setup action is subscribing the `mousemove` listener, and
the claimed order (record, listeners, interval) is not the source order. -/
theorem c8_mount_order_counterexample :
    mountActions ≠ [SetupAction.recordActivity,
      SetupAction.addListener "mousemove", SetupAction.addListener "keydown",
      SetupAction.startInterval 30000] ∧
    mountActions.head? = some (SetupAction.addListener "mousemove") := by
  decide

/-- **C8** (amended): on activation the monitor subscribes the
pointer-movement listener, then the key-press listener, then starts the
periodic check with the fixed non-configurable 30000 ms period, and finally
records the current time as the last-activity timestamp — all within the
same synchronous activation, so the mounted state starts with a fresh
baseline. -/
theorem c8_mount_order_amended :
    mountActions = [SetupAction.addListener "mousemove",
      SetupAction.addListener "keydown", SetupAction.startInterval 30000,
      SetupAction.recordActivity] ∧
    (∀ (now : Int) (st : Storage),
      getItem (mountMonitor now st).storage "lastActivity" =
        some (intToString now) ∧
      (mountMonitor now st).active = true ∧
      (mountMonitor now st).alerts = [] ∧
      (mountMonitor now st).navigations = []) := by
  refine ⟨rfl, fun now st => ⟨getItem_setItem_self _ _ _, rfl, rfl, rfl⟩⟩

/-- **C1** (counterexample): the claim fails as stated in two concrete
situations. With `user_id = "u1"` and `lastActivity = "0"` (which parses to
the valid timestamp `0`) and `now - 0` far over the threshold, the check
removes nothing, alerts nothing and navigates nowhere, because the parsed
`0` is falsy in the guard. Likewise with `user_id = ""` present and a valid
timestamp `5`, the empty marker string is falsy and nothing happens. -/
theorem c1_expiry_literal_counterexample :
    (getItem (fun x => if x = "user_id" then some "u1" else
        if x = "lastActivity" then some "0" else none) "user_id" = some "u1" ∧
      jsParseInt (getItem (fun x => if x = "user_id" then some "u1" else
        if x = "lastActivity" then some "0" else none) "lastActivity") = some 0 ∧
      (1000000 : Int) - 0 > 600000 ∧
      (sessionCheck 600000 1000000 (fun x => if x = "user_id" then some "u1" else
        if x = "lastActivity" then some "0" else none)).storage "user_id" = some "u1" ∧
      (sessionCheck 600000 1000000 (fun x => if x = "user_id" then some "u1" else
        if x = "lastActivity" then some "0" else none)).alerts = [] ∧
      (sessionCheck 600000 1000000 (fun x => if x = "user_id" then some "u1" else
        if x = "lastActivity" then some "0" else none)).navigations = []) ∧
    (getItem (fun x => if x = "user_id" then some "" else
        if x = "lastActivity" then some "5" else none) "user_id" = some "" ∧
      jsParseInt (getItem (fun x => if x = "user_id" then some "" else
        if x = "lastActivity" then some "5" else none) "lastActivity") = some 5 ∧
      (1000000 : Int) - 5 > 600000 ∧
      (sessionCheck 600000 1000000 (fun x => if x = "user_id" then some "" else
        if x = "lastActivity" then some "5" else none)).storage "user_id" = some "" ∧
      (sessionCheck 600000 1000000 (fun x => if x = "user_id" then some "" else
        if x = "lastActivity" then some "5" else none)).alerts = []) := by
  decide

/-- **C1** (amended): for a periodic check in which the session marker is
present *and non-empty* and the persisted `lastActivity` parses to a valid
*nonzero* timestamp `n`: if `now - n > timeoutMs` the check removes
`user_id` and `lastActivity`, alerts "Session expired. Please log in
again." and navigates to `/login`; if `now - n ≤ timeoutMs` it does none of
these. -/
theorem c1_expiry_amended (timeoutMs now n : Int) (st : Storage) (u : String)
    (hm : getItem st "user_id" = some u) (hu : u ≠ "")
    (hp : jsParseInt (getItem st "lastActivity") = some n) (hn : n ≠ 0) :
    (now - n > timeoutMs →
      (sessionCheck timeoutMs now st).storage "user_id" = none ∧
      (sessionCheck timeoutMs now st).storage "lastActivity" = none ∧
      (sessionCheck timeoutMs now st).alerts = [sessionExpiredMsg] ∧
      (sessionCheck timeoutMs now st).navigations = ["/login"]) ∧
    (¬now - n > timeoutMs →
      (sessionCheck timeoutMs now st).storage = st ∧
      (sessionCheck timeoutMs now st).alerts = [] ∧
      (sessionCheck timeoutMs now st).navigations = []) := by
  have htr : truthyStr (getItem st "user_id") = true := by
    rw [hm]
    simp [truthyStr, hu]
  constructor
  · intro hgt
    rw [sessionCheck_expired htr hp hn hgt]
    refine ⟨?_, ?_, rfl, rfl⟩
    · show removeItem (removeItem st "user_id") "lastActivity" "user_id" = none
      simp [removeItem]
    · show removeItem (removeItem st "user_id") "lastActivity" "lastActivity" = none
      simp [removeItem]
  · intro hle
    rw [sessionCheck_eq_noChange_of_not_over hp hle]
    exact ⟨rfl, rfl, rfl⟩

/-- Witness for the amended C1 at a concrete expired session. -/
theorem c1_expiry_amended_witness :
    getItem (fun x => if x = "user_id" then some "alice" else
      if x = "lastActivity" then some "5" else none) "user_id" = some "alice" ∧
    ("alice" : String) ≠ "" ∧
    jsParseInt (getItem (fun x => if x = "user_id" then some "alice" else
      if x = "lastActivity" then some "5" else none) "lastActivity") = some 5 ∧
    (5 : Int) ≠ 0 ∧
    (((700006 : Int) - 5 > 600000 →
      (sessionCheck 600000 700006 (fun x => if x = "user_id" then some "alice" else
        if x = "lastActivity" then some "5" else none)).storage "user_id" = none ∧
      (sessionCheck 600000 700006 (fun x => if x = "user_id" then some "alice" else
        if x = "lastActivity" then some "5" else none)).storage "lastActivity" = none ∧
      (sessionCheck 600000 700006 (fun x => if x = "user_id" then some "alice" else
        if x = "lastActivity" then some "5" else none)).alerts = [sessionExpiredMsg] ∧
      (sessionCheck 600000 700006 (fun x => if x = "user_id" then some "alice" else
        if x = "lastActivity" then some "5" else none)).navigations = ["/login"]) ∧
    (¬(700006 : Int) - 5 > 600000 →
      (sessionCheck 600000 700006 (fun x => if x = "user_id" then some "alice" else
        if x = "lastActivity" then some "5" else none)).storage =
        (fun x => if x = "user_id" then some "alice" else
          if x = "lastActivity" then some "5" else none) ∧
      (sessionCheck 600000 700006 (fun x => if x = "user_id" then some "alice" else
        if x = "lastActivity" then some "5" else none)).alerts = [] ∧
      (sessionCheck 600000 700006 (fun x => if x = "user_id" then some "alice" else
        if x = "lastActivity" then some "5" else none)).navigations = [])) :=
  ⟨by decide, by decide, by decide, by decide,
    c1_expiry_amended 600000 700006 5 _ "alice" (by decide) (by decide) (by decide)
      (by decide)⟩

/-- **C2**: along any event sequence in which every activity event and every
interleaved periodic check occurs within the idle threshold of the most
recent activity (whose timestamp is the one stored), the monitor never
clears `user_id`, never alerts and never navigates: each activity event
rewrites `lastActivity` to its own time, and every check finds the elapsed
time not above the threshold. -/
theorem c2_activity_keeps_session (timeoutMs : Int) (evs : List MEvent) :
    ∀ (a : Int) (s : MState),
      s.active = true →
      getItem s.storage "lastActivity" = some (intToString a) →
      spacedFrom timeoutMs a evs = true →
      (runM timeoutMs s evs).storage "user_id" = s.storage "user_id" ∧
      (runM timeoutMs s evs).alerts = s.alerts ∧
      (runM timeoutMs s evs).navigations = s.navigations := by
  induction evs with
  | nil =>
    intro a s _ _ _
    exact ⟨rfl, rfl, rfl⟩
  | cons e evs ih =>
    intro a s hact hla hsp
    cases e with
    | activity t =>
      simp only [spacedFrom, Bool.and_eq_true] at hsp
      obtain ⟨⟨-, -⟩, hsp'⟩ := hsp
      have hstep : stepM timeoutMs s (MEvent.activity t) =
          { s with storage := updateLastActivity t s.storage } := by
        simp [stepM, hact]
      have h2 : getItem (updateLastActivity t s.storage) "lastActivity" =
          some (intToString t) := getItem_setItem_self _ _ _
      obtain ⟨g1, g2, g3⟩ :=
        ih t { s with storage := updateLastActivity t s.storage } hact h2 hsp'
      rw [runM] at g1 g2 g3
      rw [runM, List.foldl_cons, hstep]
      refine ⟨?_, g2, g3⟩
      rw [g1]
      show getItem (setItem s.storage "lastActivity" (intToString t)) "user_id" =
        getItem s.storage "user_id"
      exact getItem_setItem_ne s.storage (intToString t) (by decide)
    | check t =>
      simp only [spacedFrom, Bool.and_eq_true, decide_eq_true_eq] at hsp
      obtain ⟨⟨-, hlt⟩, hsp'⟩ := hsp
      have hparse : jsParseInt (getItem s.storage "lastActivity") = some a := by
        rw [hla]
        exact jsParseInt_some_intToString a
      have hnc : sessionCheck timeoutMs t s.storage = noChange s.storage :=
        sessionCheck_eq_noChange_of_not_over hparse (by omega)
      have hstep : stepM timeoutMs s (MEvent.check t) = s := by
        obtain ⟨ac, stg, al, nv⟩ := s
        have hac : ac = true := hact
        subst hac
        simp [stepM, hnc, noChange]
      rw [runM, List.foldl_cons, hstep]
      exact ih a s hact hla hsp'
    | unmount =>
      simp only [spacedFrom] at hsp
      exact absurd hsp (by decide)

/-- Witness for C2: activity at t=1000, a key-press refresh at t=2000 and a
check at t=2500 with a 10-minute threshold; the marker survives. -/
theorem c2_activity_keeps_session_witness :
    (MState.mk true (updateLastActivity 1000
      (fun x => if x = "user_id" then some "u" else none)) [] []).active = true ∧
    getItem (MState.mk true (updateLastActivity 1000
      (fun x => if x = "user_id" then some "u" else none)) [] []).storage
      "lastActivity" = some (intToString 1000) ∧
    spacedFrom 600000 1000 [MEvent.activity 2000, MEvent.check 2500] = true ∧
    ((runM 600000 (MState.mk true (updateLastActivity 1000
        (fun x => if x = "user_id" then some "u" else none)) [] [])
        [MEvent.activity 2000, MEvent.check 2500]).storage "user_id" =
      (MState.mk true (updateLastActivity 1000
        (fun x => if x = "user_id" then some "u" else none)) [] []).storage
        "user_id" ∧
      (runM 600000 (MState.mk true (updateLastActivity 1000
        (fun x => if x = "user_id" then some "u" else none)) [] [])
        [MEvent.activity 2000, MEvent.check 2500]).alerts = [] ∧
      (runM 600000 (MState.mk true (updateLastActivity 1000
        (fun x => if x = "user_id" then some "u" else none)) [] [])
        [MEvent.activity 2000, MEvent.check 2500]).navigations = []) :=
  ⟨rfl, getItem_setItem_self _ _ _, by decide,
    c2_activity_keeps_session 600000 [MEvent.activity 2000, MEvent.check 2500]
      1000 _ rfl (getItem_setItem_self _ _ _) (by decide)⟩

/-- **C5**: the check leaves `token` untouched and, outside an expiry,
every entry; on expiry (an alert was produced) exactly `user_id` and
`lastActivity` end up removed while any other key keeps its value; the
activity handler also leaves `token` untouched; and the check's alert and
navigation behaviour does not depend on the `token` entry at all. -/
theorem c5_expiry_frame (timeoutMs now : Int) (st : Storage) (v k : String)
    (hk1 : k ≠ "user_id") (hk2 : k ≠ "lastActivity") :
    (sessionCheck timeoutMs now st).storage "token" = getItem st "token" ∧
    (sessionCheck timeoutMs now st).storage k = getItem st k ∧
    ((sessionCheck timeoutMs now st).alerts ≠ [] →
      (sessionCheck timeoutMs now st).storage "user_id" = none ∧
      (sessionCheck timeoutMs now st).storage "lastActivity" = none) ∧
    updateLastActivity now st "token" = getItem st "token" ∧
    (sessionCheck timeoutMs now (setItem st "token" v)).alerts =
      (sessionCheck timeoutMs now st).alerts ∧
    (sessionCheck timeoutMs now (setItem st "token" v)).navigations =
      (sessionCheck timeoutMs now st).navigations := by
  have hframe : ∀ k' : String, k' ≠ "user_id" → k' ≠ "lastActivity" →
      (sessionCheck timeoutMs now st).storage k' = getItem st k' := by
    intro k' h1 h2
    rcases sessionCheck_cases timeoutMs now st with hc | hc <;> rw [hc]
    · rfl
    · show removeItem (removeItem st "user_id") "lastActivity" k' = st k'
      simp [removeItem, h1, h2]
  have hL : getItem (setItem st "token" v) "lastActivity" = getItem st "lastActivity" :=
    getItem_setItem_ne st v (by decide)
  have hU : getItem (setItem st "token" v) "user_id" = getItem st "user_id" :=
    getItem_setItem_ne st v (by decide)
  refine ⟨hframe "token" (by decide) (by decide), hframe k hk1 hk2, ?_, ?_, ?_, ?_⟩
  · intro halert
    rcases sessionCheck_cases timeoutMs now st with hc | hc
    · rw [hc] at halert
      exact absurd rfl halert
    · rw [hc]
      constructor
      · show removeItem (removeItem st "user_id") "lastActivity" "user_id" = none
        simp [removeItem]
      · show removeItem (removeItem st "user_id") "lastActivity" "lastActivity" = none
        simp [removeItem]
  · show getItem (setItem st "lastActivity" (intToString now)) "token" = getItem st "token"
    exact getItem_setItem_ne st (intToString now) (by decide)
  · simp only [sessionCheck, hL, hU]
    by_cases hC : (truthyStr (getItem st "user_id") &&
        truthyNum (jsParseInt (getItem st "lastActivity"))) = true
    · rw [if_pos hC, if_pos hC]
      by_cases hD : now - (jsParseInt (getItem st "lastActivity")).getD 0 > timeoutMs
      · rw [if_pos hD, if_pos hD]
      · rw [if_neg hD, if_neg hD]
        rfl
    · rw [if_neg hC, if_neg hC]
      rfl
  · simp only [sessionCheck, hL, hU]
    by_cases hC : (truthyStr (getItem st "user_id") &&
        truthyNum (jsParseInt (getItem st "lastActivity"))) = true
    · rw [if_pos hC, if_pos hC]
      by_cases hD : now - (jsParseInt (getItem st "lastActivity")).getD 0 > timeoutMs
      · rw [if_pos hD, if_pos hD]
      · rw [if_neg hD, if_neg hD]
        rfl
    · rw [if_neg hC, if_neg hC]
      rfl

/-- Witness for C5 at a concrete expiring state with a `token` present and
an unrelated key `"theme"`. -/
theorem c5_expiry_frame_witness :
    ("theme" : String) ≠ "user_id" ∧ ("theme" : String) ≠ "lastActivity" ∧
    ((sessionCheck 600000 700006 (fun x => if x = "user_id" then some "alice" else
        if x = "lastActivity" then some "5" else
        if x = "token" then some "tok" else none)).storage "token" =
      getItem (fun x => if x = "user_id" then some "alice" else
        if x = "lastActivity" then some "5" else
        if x = "token" then some "tok" else none) "token" ∧
      (sessionCheck 600000 700006 (fun x => if x = "user_id" then some "alice" else
        if x = "lastActivity" then some "5" else
        if x = "token" then some "tok" else none)).storage "theme" =
      getItem (fun x => if x = "user_id" then some "alice" else
        if x = "lastActivity" then some "5" else
        if x = "token" then some "tok" else none) "theme" ∧
      ((sessionCheck 600000 700006 (fun x => if x = "user_id" then some "alice" else
          if x = "lastActivity" then some "5" else
          if x = "token" then some "tok" else none)).alerts ≠ [] →
        (sessionCheck 600000 700006 (fun x => if x = "user_id" then some "alice" else
          if x = "lastActivity" then some "5" else
          if x = "token" then some "tok" else none)).storage "user_id" = none ∧
        (sessionCheck 600000 700006 (fun x => if x = "user_id" then some "alice" else
          if x = "lastActivity" then some "5" else
          if x = "token" then some "tok" else none)).storage "lastActivity" = none) ∧
      updateLastActivity 700006 (fun x => if x = "user_id" then some "alice" else
        if x = "lastActivity" then some "5" else
        if x = "token" then some "tok" else none) "token" =
      getItem (fun x => if x = "user_id" then some "alice" else
        if x = "lastActivity" then some "5" else
        if x = "token" then some "tok" else none) "token" ∧
      (sessionCheck 600000 700006 (setItem (fun x => if x = "user_id" then some "alice" else
        if x = "lastActivity" then some "5" else
        if x = "token" then some "tok" else none) "token" "tok2")).alerts =
      (sessionCheck 600000 700006 (fun x => if x = "user_id" then some "alice" else
        if x = "lastActivity" then some "5" else
        if x = "token" then some "tok" else none)).alerts ∧
      (sessionCheck 600000 700006 (setItem (fun x => if x = "user_id" then some "alice" else
        if x = "lastActivity" then some "5" else
        if x = "token" then some "tok" else none) "token" "tok2")).navigations =
      (sessionCheck 600000 700006 (fun x => if x = "user_id" then some "alice" else
        if x = "lastActivity" then some "5" else
        if x = "token" then some "tok" else none)).navigations) :=
  ⟨by decide, by decide,
    c5_expiry_frame 600000 700006 _ "tok2" "theme" (by decide) (by decide)⟩

/-- **C7**: every write performed by the monitor (the initial write on
activation and each handler firing) stores exactly the write time, so the
parsed stored history along writes at non-decreasing times is exactly that
time sequence and is itself non-decreasing. -/
theorem c7_timestamp_monotone (st : Storage) (a : Int) (ts : List Int)
    (h1 : jsParseInt (getItem st "lastActivity") = some a)
    (h2 : List.Chain (· ≤ ·) a ts) :
    storedTimestamps st ts = (a :: ts).map some ∧
    List.Chain' (fun x y : Option Int => ∀ p q : Int, x = some p → y = some q → p ≤ q)
      (storedTimestamps st ts) := by
  have he := storedTimestamps_eq a ts st h1
  refine ⟨he, ?_⟩
  rw [he, List.chain'_map]
  have hch : List.Chain' (fun x y : Int => x ≤ y) (a :: ts) := h2
  refine List.Chain'.imp ?_ hch
  intro x y hxy p q hp hq
  exact (Option.some.inj hp) ▸ (Option.some.inj hq) ▸ hxy

/-- Witness for C7: baseline write at t=5, further writes at t=7 and t=9. -/
theorem c7_timestamp_monotone_witness :
    jsParseInt (getItem (updateLastActivity 5 (fun _ => none)) "lastActivity") =
      some 5 ∧
    List.Chain (fun x y : Int => x ≤ y) 5 [7, 9] ∧
    (storedTimestamps (updateLastActivity 5 (fun _ => none)) [7, 9] =
      ([5, 7, 9] : List Int).map some ∧
    List.Chain' (fun x y : Option Int => ∀ p q : Int, x = some p → y = some q → p ≤ q)
      (storedTimestamps (updateLastActivity 5 (fun _ => none)) [7, 9])) :=
  ⟨by rw [updateLastActivity, getItem_setItem_self]; exact jsParseInt_some_intToString 5,
    List.Chain.cons (by decide) (List.Chain.cons (by decide) List.Chain.nil),
    c7_timestamp_monotone _ 5 [7, 9]
      (by rw [updateLastActivity, getItem_setItem_self]
          exact jsParseInt_some_intToString 5)
      (List.Chain.cons (by decide) (List.Chain.cons (by decide) List.Chain.nil))⟩

end SessionTimeout
